import Mathlib

/-!
Verification of the loadsphere HOS planning core.

This file shallowly embeds the Hours-of-Service scheduler
(`backend/planner/services/hos.py`), the alert evaluator and trip/job
pipeline (`backend/planner/services/trip_planner.py`), the duty-log
validator (`backend/planner/services/logs.py`) and the GraphQL trip-status
mutation (`backend/planner/schema/mutations.py`).

Modelling conventions:
* Python floats are modelled as exact rationals (`ℚ`); `round` is the
  round-half-to-even integer rounding Python uses, embedded as `pyRound`.
* Times of day (parsed from "HH:MM" strings in the source) are modelled as
  minutes since midnight (`Nat`); the HH:MM parser is the bijection between
  valid strings and such numbers, so string parsing itself is elided.
* Database rows are records in explicit in-memory lists; `transaction.atomic`
  is modelled by returning `Except`: an error leaves the caller with the
  original state, i.e. nothing of the failed call persists.
* Human-readable message strings are kept verbatim where constant; dynamic
  interpolated fragments (formatted numbers) are dropped from messages.
-/

/-- Python `round` (banker's rounding, half to even) on exact rationals. -/
def pyRound (q : ℚ) : ℤ :=
  if q - ⌊q⌋ < 1/2 then ⌊q⌋
  else if 1/2 < q - ⌊q⌋ then ⌊q⌋ + 1
  else if ⌊q⌋ % 2 = 0 then ⌊q⌋ else ⌊q⌋ + 1

/-! ## HOS day scheduler (`services/hos.py`) -/

/-- One entry of `DailyHosSummary.segments` (status, minutes, remarks). -/
structure HosSegment where
  status : String
  minutes : ℤ
  remarks : String
deriving Repr, DecidableEq

/-- `DailyHosSummary` dataclass from `services/hos.py`. -/
structure DailyHosSummary where
  day_number : Nat
  total_driving_minutes : ℤ
  total_on_duty_minutes : ℤ
  total_off_duty_minutes : ℤ
  total_sleeper_minutes : ℤ
  remaining_cycle_hours : ℚ
  segments : List HosSegment
deriving Repr, DecidableEq

def DRIVING_LIMIT_PER_DAY : ℚ := 11
def ON_DUTY_LIMIT_PER_DAY : ℚ := 14
def CYCLE_LIMIT_HOURS : ℚ := 70
def MANDATORY_OFF_DUTY_HOURS : ℚ := 10
def ON_DUTY_BUFFER_HOURS : ℚ := 2

/-- The `while remaining_hours > 0 and remaining_cycle > 0` loop of
`generate_driver_logs`, with explicit fuel.  Each non-final iteration
consumes at least 13 cycle hours (see `hosLoop_fuel_stable`), so the fuel
chosen in `generate_driver_logs` never runs out before the loop guard
exits. -/
def hosLoop : Nat → ℚ → ℚ → Nat → List DailyHosSummary
  | 0, _, _, _ => []
  | fuel+1, remaining_hours, remaining_cycle, day_number =>
    if remaining_hours > 0 ∧ remaining_cycle > 0 then
      let planned_driving := min DRIVING_LIMIT_PER_DAY (min remaining_hours remaining_cycle)
      let planned_on_duty :=
        min (planned_driving + ON_DUTY_BUFFER_HOURS) (min ON_DUTY_LIMIT_PER_DAY remaining_cycle)
      let driving_minutes := pyRound (planned_driving * 60)
      let on_duty_minutes := pyRound (planned_on_duty * 60)
      let off_duty_minutes := pyRound (MANDATORY_OFF_DUTY_HOURS * 60)
      { day_number := day_number
        total_driving_minutes := driving_minutes
        total_on_duty_minutes := on_duty_minutes
        total_off_duty_minutes := off_duty_minutes
        total_sleeper_minutes := 0
        remaining_cycle_hours := max (remaining_cycle - planned_on_duty) 0
        segments :=
          [⟨"ON_DUTY", on_duty_minutes - driving_minutes, "Pre/post-trip activities"⟩,
           ⟨"DRIVING", driving_minutes, "Planned driving"⟩,
           ⟨"OFF_DUTY", off_duty_minutes, "Rest"⟩] } ::
      hosLoop fuel (remaining_hours - planned_driving) (remaining_cycle - planned_on_duty)
        (day_number + 1)
    else []

/-- The per-day `(planned_driving, planned_on_duty)` hour values produced by
the same loop, before minute rounding. -/
def hosPlannedHours : Nat → ℚ → ℚ → List (ℚ × ℚ)
  | 0, _, _ => []
  | fuel+1, remaining_hours, remaining_cycle =>
    if remaining_hours > 0 ∧ remaining_cycle > 0 then
      let planned_driving := min DRIVING_LIMIT_PER_DAY (min remaining_hours remaining_cycle)
      let planned_on_duty :=
        min (planned_driving + ON_DUTY_BUFFER_HOURS) (min ON_DUTY_LIMIT_PER_DAY remaining_cycle)
      (planned_driving, planned_on_duty) ::
        hosPlannedHours fuel (remaining_hours - planned_driving)
          (remaining_cycle - planned_on_duty)
    else []

/-- Fuel bound for `hosLoop`: generous upper bound on the number of loop
iterations (the loop retires at least 13 cycle hours per non-final day). -/
def hosFuel (remaining_cycle : ℚ) : Nat := Int.toNat ⌈remaining_cycle⌉ + 1

/-- The planned (driving, on-duty) hour pairs underlying
`generate_driver_logs total_trip_hours cycle_hours_used` on the success
path (same guards, same loop, before minute rounding). -/
def plannedHoursOf (total_trip_hours cycle_hours_used : ℚ) : List (ℚ × ℚ) :=
  hosPlannedHours (hosFuel (max (CYCLE_LIMIT_HOURS - cycle_hours_used) 0))
    (min total_trip_hours (max (CYCLE_LIMIT_HOURS - cycle_hours_used) 0))
    (max (CYCLE_LIMIT_HOURS - cycle_hours_used) 0)

/-- `generate_driver_logs` from `services/hos.py`; `HOSComputationError`
is modelled as the `Except.error` branch carrying the exception message. -/
def generate_driver_logs (total_trip_hours cycle_hours_used : ℚ) :
    Except String (List DailyHosSummary) :=
  if total_trip_hours < 0 then
    .error "Trip duration must be non-negative."
  else
    let cycle_hours_remaining := max (CYCLE_LIMIT_HOURS - cycle_hours_used) 0
    if cycle_hours_remaining ≤ 0 then
      .error "Driver has exhausted the 70-hour cycle. Trip cannot be scheduled."
    else
      let hours_to_schedule := min total_trip_hours cycle_hours_remaining
      if hours_to_schedule ≤ 0 then
        .error "No remaining hours available to schedule this trip."
      else
        .ok (hosLoop (hosFuel cycle_hours_remaining) hours_to_schedule cycle_hours_remaining 1)

/-! ## Alert evaluator (`_evaluate_hos_alerts` in `services/trip_planner.py`) -/

/-- The keys of a daily log payload dictionary that `_evaluate_hos_alerts`
reads; absent keys are `none`. -/
structure HosLogPayload where
  day_number : Nat := 0
  total_driving_minutes : Option ℚ := none
  total_driving_hours : Option ℚ := none
  total_on_duty_minutes : Option ℚ := none
  total_on_duty_hours : Option ℚ := none
  remaining_cycle_hours : Option ℚ := none
deriving Repr, DecidableEq

/-- An alert record; the human-readable `message` field of the source is
presentational (interpolated text) and is not modelled. -/
structure Alert where
  level : String
  rule : String
  day_number : Option Nat
deriving Repr, DecidableEq

/-- Float-comparison epsilon used by the evaluator (`1e-6`). -/
def HOS_EPS : ℚ := 1 / 1000000

/-- `driving_minutes` extraction: prefer `total_driving_minutes`, fall back
to `total_driving_hours * 60`, default `0.0` (`float(x or 0.0)`). -/
def payloadDrivingMinutes (p : HosLogPayload) : ℚ :=
  match p.total_driving_minutes with
  | some m => m
  | none =>
    match p.total_driving_hours with
    | some h => h * 60
    | none => 0

/-- `on_duty_minutes` extraction, same fallback scheme. -/
def payloadOnDutyMinutes (p : HosLogPayload) : ℚ :=
  match p.total_on_duty_minutes with
  | some m => m
  | none =>
    match p.total_on_duty_hours with
    | some h => h * 60
    | none => 0

/-- The per-day alert checks of `_evaluate_hos_alerts`, in emission order. -/
def dayAlerts (p : HosLogPayload) : List Alert :=
  let dayNum : Option Nat := if p.day_number = 0 then none else some p.day_number
  let driving := payloadDrivingMinutes p / 60
  let on_duty := payloadOnDutyMinutes p / 60
  (if driving > DRIVING_LIMIT_PER_DAY + HOS_EPS then
      [⟨"danger", "11-hour driving limit", dayNum⟩]
    else if driving ≥ DRIVING_LIMIT_PER_DAY * (95/100) then
      [⟨"warning", "11-hour driving limit", dayNum⟩]
    else []) ++
  (if on_duty > ON_DUTY_LIMIT_PER_DAY + HOS_EPS then
      [⟨"danger", "14-hour on-duty window", dayNum⟩]
    else if on_duty ≥ ON_DUTY_LIMIT_PER_DAY * (95/100) then
      [⟨"warning", "14-hour on-duty window", dayNum⟩]
    else []) ++
  (match p.remaining_cycle_hours with
    | some rc =>
      if rc < -HOS_EPS then [⟨"danger", "70-hour/8-day cycle", dayNum⟩]
      else if rc ≤ 8 then [⟨"warning", "70-hour/8-day cycle", dayNum⟩]
      else []
    | none => [])

/-- On-duty hours of one payload for the projected-cycle sum (this branch
checks `is not None`, not falsiness, exactly as the source). -/
def payloadOnDutyHoursForCycle (p : HosLogPayload) : ℚ :=
  match p.total_on_duty_minutes with
  | some m => m / 60
  | none => p.total_on_duty_hours.getD 0

/-- `_evaluate_hos_alerts`: per-day alerts in day order, then the single
trip-level projected-cycle check. -/
def evaluate_hos_alerts (log_payloads : List HosLogPayload) (cycle_hours_used : ℚ) :
    List Alert :=
  let projected_cycle_usage :=
    cycle_hours_used + (log_payloads.map payloadOnDutyHoursForCycle).sum
  (log_payloads.map dayAlerts).flatten ++
  (if projected_cycle_usage ≥ CYCLE_LIMIT_HOURS then
      [⟨"danger", "70-hour/8-day cycle", none⟩]
    else if projected_cycle_usage ≥ CYCLE_LIMIT_HOURS * (9/10) then
      [⟨"warning", "70-hour/8-day cycle", none⟩]
    else [])

/-! ## Shared persisted entities (`models.py`)

Only the fields the verified operations read or write are modelled;
framework metadata (timestamps, free-text carrier fields) is elided. -/

/-- A `{lat, lng, address}` location payload. -/
structure Location where
  lat : ℚ := 0
  lng : ℚ := 0
  address : String := ""
deriving Repr, DecidableEq

/-- `Trip` row. -/
structure Trip where
  id : Nat
  user : Nat
  status : String := "PLANNED"
  cycle_hours_used : ℚ := 0
  start_location : Location := {}
  pickup_location : Location := {}
  dropoff_location : Location := {}
  total_miles : ℚ := 0
  total_hours : ℚ := 0
deriving Repr, DecidableEq

/-- `DriverLog` row. `log_date` is an opaque day ordinal. -/
structure DriverLog where
  id : Nat
  trip_id : Nat
  day_number : Nat
  log_date : Nat := 0
  notes : String := ""
  total_off_duty_minutes : ℤ := 0
  total_sleeper_minutes : ℤ := 0
  total_driving_minutes : ℤ := 0
  total_on_duty_minutes : ℤ := 0
  total_distance_miles : ℚ := 0
deriving Repr, DecidableEq

/-- `DutyStatusSegment` row; times are minutes since midnight. -/
structure DutyStatusSegment where
  log_id : Nat
  status : String
  start_time : Nat
  end_time : Nat
  location : String := ""
  activity : String := ""
  remarks : String := ""
deriving Repr, DecidableEq

/-! ## Duty segment validator (`services/logs.py`) -/

def FIFTEEN_MINUTES : ℤ := 15
def MINUTES_PER_DAY : ℤ := 24 * 60

def VALID_STATUSES : List String :=
  ["OFF_DUTY", "SLEEPER_BERTH", "DRIVING", "ON_DUTY"]

/-- Errors of the logs service: Django `ValidationError` versus
`PermissionDenied`, each with its message. -/
inductive LogError where
  | validation : String → LogError
  | permission : String → LogError
deriving Repr, DecidableEq

/-- A raw incoming segment payload: every key may be absent (`none`).
Times are the minutes-since-midnight reading of the "HH:MM" strings. -/
structure RawSegment where
  status : Option String := none
  startTime : Option Nat := none
  endTime : Option Nat := none
  location : Option String := none
  activity : Option String := none
  remarks : Option String := none
deriving Repr, DecidableEq

/-- `SegmentInput` dataclass. -/
structure SegmentInput where
  status : String
  start_time : Nat
  end_time : Nat
  location : String
  activity : String
  remarks : String
deriving Repr, DecidableEq

/-- `SegmentInput.duration_minutes`. -/
def SegmentInput.duration_minutes (s : SegmentInput) : ℤ :=
  (s.end_time : ℤ) - (s.start_time : ℤ)

/-- `SegmentInput.validate`. -/
def SegmentInput.validate (s : SegmentInput) : Except LogError Unit :=
  if s.status ∉ VALID_STATUSES then
    .error (.validation "Unsupported duty status")
  else if s.end_time ≤ s.start_time then
    .error (.validation "Segment end_time must be after start_time")
  else if s.duration_minutes % FIFTEEN_MINUTES ≠ 0 then
    .error (.validation "Duty segments must be in 15-minute increments")
  else
    .ok ()

/-- `_parse_time`: a missing value is a validation error. -/
def parse_time (label : String) (value : Option Nat) : Except LogError Nat :=
  match value with
  | none => .error (.validation ("Missing " ++ label))
  | some t => .ok t

/-- The `SegmentInput` built by `_normalise_segments` for one raw payload
(status defaults to OFF_DUTY; free text clipped to 255 characters). -/
def buildSegment (raw : RawSegment) (start_time end_time : Nat) : SegmentInput :=
  { status := raw.status.getD "OFF_DUTY"
    start_time := start_time
    end_time := end_time
    location := (raw.location.getD "").take 255
    activity := (raw.activity.getD "").take 255
    remarks := raw.remarks.getD "" }

/-- `_normalise_segments`: build and validate `SegmentInput`s in order;
the first failing segment aborts with its `ValidationError`. -/
def normalise_segments : List RawSegment → Except LogError (List SegmentInput)
  | [] => .ok []
  | raw :: rest =>
    match parse_time "startTime" raw.startTime with
    | .error e => .error e
    | .ok start_time =>
      match parse_time "endTime" raw.endTime with
      | .error e => .error e
      | .ok end_time =>
        match (buildSegment raw start_time end_time).validate with
        | .error e => .error e
        | .ok _ =>
          match normalise_segments rest with
          | .error e => .error e
          | .ok tail => .ok (buildSegment raw start_time end_time :: tail)

/-- Per-status minute totals accumulated by `upsert_driver_log`. -/
structure DutyTotals where
  off_duty : ℤ := 0
  sleeper : ℤ := 0
  driving : ℤ := 0
  on_duty : ℤ := 0
deriving Repr, DecidableEq

/-- Add `minutes` to the bucket for `status` (statuses are already
validated, so the four buckets cover all cases). -/
def DutyTotals.add (t : DutyTotals) (status : String) (minutes : ℤ) : DutyTotals :=
  if status = "OFF_DUTY" then { t with off_duty := t.off_duty + minutes }
  else if status = "SLEEPER_BERTH" then { t with sleeper := t.sleeper + minutes }
  else if status = "DRIVING" then { t with driving := t.driving + minutes }
  else { t with on_duty := t.on_duty + minutes }

/-- Scan of (start, end) minute pairs for the overlap condition the totals
loop of `upsert_driver_log` detects: some segment starts strictly before
the previous segment ended. `prev` is the previous end time, if any. -/
def overlapFrom (prev : Option Nat) : List (Nat × Nat) → Bool
  | [] => false
  | (s, e) :: rest =>
    (match prev with
     | some p => decide (s < p)
     | none => false) || overlapFrom (some e) rest

/-- The (start, end) minute pairs of a raw segment list (defaults are only
read when the corresponding key is present, per the well-formedness
hypotheses of the theorems below). -/
def segTimesOf (raw : List RawSegment) : List (Nat × Nat) :=
  raw.map fun r => (r.startTime.getD 0, r.endTime.getD 0)

/-- The totals/overlap accumulation loop of `upsert_driver_log`: threads the
previous segment end time, the per-status totals and the minutes cursor. -/
def accumulateSegments (last_segment_end : Option Nat) (totals : DutyTotals)
    (minutes_cursor : ℤ) :
    List SegmentInput → Except LogError (DutyTotals × ℤ)
  | [] => .ok (totals, minutes_cursor)
  | segment :: rest =>
    let minutes := segment.duration_minutes
    let totals2 := totals.add segment.status minutes
    let cursor2 := minutes_cursor + minutes
    match last_segment_end with
    | some prev_end =>
      if segment.start_time < prev_end then
        .error (.validation "Duty segments may not overlap")
      else
        accumulateSegments (some segment.end_time) totals2 cursor2 rest
    | none => accumulateSegments (some segment.end_time) totals2 cursor2 rest

/-- The logs-service view of the store. -/
structure LogsDB where
  trips : List Trip
  logs : List DriverLog
  segments : List DutyStatusSegment
  next_log_id : Nat := 1
deriving Repr, DecidableEq

/-- `upsert_driver_log` (`@transaction.atomic`): an `Except.error` result
means the transaction rolled back and the caller keeps the original state. -/
def upsert_driver_log (db : LogsDB) (user : Nat) (trip_id : Nat) (day_number : ℤ)
    (log_date : Option Nat) (notes : String) (segments : List RawSegment)
    (total_distance_miles : Option ℚ := none) :
    Except LogError (LogsDB × DriverLog) :=
  if day_number ≤ 0 then
    .error (.validation "dayNumber must be 1 or greater")
  else
    match db.trips.find? (fun t => t.id = trip_id ∧ t.user = user) with
    | none => .error (.permission "Trip not found")
    | some trip =>
      match normalise_segments segments with
      | .error e => .error e
      | .ok parsed_segments =>
        if parsed_segments.isEmpty then
          .error (.validation "At least one duty segment is required")
        else
          match accumulateSegments none {} 0 parsed_segments with
          | .error e => .error e
          | .ok (totals, minutes_cursor) =>
            if minutes_cursor > MINUTES_PER_DAY then
              .error (.validation "Daily duty segments exceed 24 hours")
            else
              -- `log_date or timezone.now().date()`: the clock default is day 0.
              let the_log_date := log_date.getD 0
              -- get_or_create on (trip, day_number)
              let existing := db.logs.find?
                (fun l => l.trip_id = trip.id ∧ (l.day_number : ℤ) = day_number)
              let log_id :=
                match existing with
                | some e => e.id
                | none => db.next_log_id
              let next_id :=
                match existing with
                | some _ => db.next_log_id
                | none => db.next_log_id + 1
              let old_distance :=
                match existing with
                | some e => e.total_distance_miles
                | none => 0
              let driver_log : DriverLog :=
                { id := log_id
                  trip_id := trip.id
                  day_number := day_number.toNat
                  log_date := the_log_date
                  notes := notes
                  total_off_duty_minutes := totals.off_duty
                  total_sleeper_minutes := totals.sleeper
                  total_driving_minutes := totals.driving
                  total_on_duty_minutes := totals.on_duty
                  total_distance_miles := total_distance_miles.getD old_distance }
              let new_segments := parsed_segments.map fun s =>
                ({ log_id := log_id, status := s.status, start_time := s.start_time,
                   end_time := s.end_time, location := s.location, activity := s.activity,
                   remarks := s.remarks } : DutyStatusSegment)
              let db2 : LogsDB :=
                { trips := db.trips
                  logs := driver_log :: db.logs.filter
                    (fun l => ¬(l.trip_id = trip.id ∧ (l.day_number : ℤ) = day_number))
                  segments := db.segments.filter (fun s => s.log_id ≠ log_id) ++ new_segments
                  next_log_id := next_id }
              .ok (db2, driver_log)

/-- `delete_driver_log`: `Bool` result is "log existed and was deleted";
an unowned log raises `PermissionDenied`.  The trip of a stored log always
exists (foreign-key integrity), so a dangling `trip_id` is also refused. -/
def delete_driver_log (db : LogsDB) (user : Nat) (log_id : Nat) :
    Except LogError (LogsDB × Bool) :=
  match db.logs.find? (fun l => l.id = log_id) with
  | none => .ok (db, false)
  | some log =>
    match db.trips.find? (fun t => t.id = log.trip_id) with
    | some trip =>
      if trip.user ≠ user then
        .error (.permission "Not allowed to modify this log")
      else
        .ok ({ db with
                logs := db.logs.filter (fun l => l.id ≠ log_id)
                segments := db.segments.filter (fun s => s.log_id ≠ log.id) },
             true)
    | none => .error (.permission "Not allowed to modify this log")

/-! ## Trip orchestration pipeline (`plan_trip_for_user`) -/

/-- One per-leg segment of the routing collaborator's response; every key
may be absent. -/
structure RouteSegmentData where
  distance_miles : Option ℚ := none
  duration_hours : Option ℚ := none
  duration_minutes : Option ℚ := none
deriving Repr, DecidableEq

/-- The routing collaborator's response dictionary. -/
structure RouteData where
  polyline : Option String := none
  total_distance_miles : Option ℚ := none
  total_duration_hours : Option ℚ := none
  segments : List RouteSegmentData := []
deriving Repr, DecidableEq

/-- `Route` row. -/
structure Route where
  trip_id : Nat
  polyline : String
  total_distance : ℚ
  estimated_duration : ℚ
deriving Repr, DecidableEq

/-- `Stop` row. -/
structure Stop where
  route_id : Nat
  stop_type : String
  location : Location
  duration_minutes : ℤ := 0
  sequence : Nat
  distance_from_previous : ℚ := 0
  duration_from_previous : ℚ := 0
deriving Repr, DecidableEq

/-- One leg of the itinerary summary. -/
structure ItineraryLeg where
  sequence : Nat
  from_stop_type : String
  to_stop_type : String
  from_location : Location
  to_location : Location
  distance_miles : ℚ
  duration_hours : ℚ
deriving Repr, DecidableEq

/-- `trip.itinerary_summary` as written by the pipeline. -/
structure ItinerarySummary where
  legs : List ItineraryLeg
  total_distance_miles : ℚ
  total_duration_hours : ℚ
  hos_alerts : List Alert
deriving Repr, DecidableEq

/-- The pipeline's view of the store. -/
structure PlanDB where
  trips : List Trip
  routes : List Route
  stops : List Stop
  itineraries : List (Nat × ItinerarySummary) := []
  next_trip_id : Nat := 1
deriving Repr, DecidableEq

/-- A stop definition dictionary from `_build_stop_definitions`, after the
per-leg metric fill-in. -/
structure StopDefinition where
  stop_type : String
  location : Location
  distance_from_previous : ℚ := 0
  duration_from_previous : ℚ := 0
deriving Repr, DecidableEq

/-- `_build_stop_definitions`. -/
def build_stop_definitions (locations : List Location) : List StopDefinition :=
  (List.zip ["START", "PICKUP", "DROPOFF"] locations).map fun lp =>
    { stop_type := lp.1, location := lp.2 }

/-- duration of routing segment `seg`:
`segment.get('duration_hours', segment.get('duration_minutes', 0.0) / 60.0)`. -/
def segmentDurationHours (seg : RouteSegmentData) : ℚ :=
  match seg.duration_hours with
  | some h => h
  | none => seg.duration_minutes.getD 0 / 60

/-- `plan_trip_for_user`.  The routing collaborator is passed in as the
outcome of `plan_route` (`Except` of the `RoutePlannerError` message).  The
whole body runs in `transaction.atomic`: on any error the function returns
the original store and the raised `TripPlanningError` message. -/
def plan_trip_for_user (db : PlanDB) (user : Option Nat)
    (start_location pickup_location dropoff_location : Location)
    (cycle_hours_used : ℚ) (route_outcome : Except String RouteData) :
    PlanDB × Except String Trip :=
  match user with
  | none => (db, .error "A valid user is required to plan a trip.")
  | some uid =>
    -- inside transaction.atomic: the Trip row is created first
    let trip0 : Trip :=
      { id := db.next_trip_id
        user := uid
        status := "PLANNED"
        cycle_hours_used := cycle_hours_used
        start_location := start_location
        pickup_location := pickup_location
        dropoff_location := dropoff_location }
    match route_outcome with
    | .error msg =>
      -- RoutePlannerError is re-raised as TripPlanningError(str(exc));
      -- the atomic block rolls everything back.
      (db, .error msg)
    | .ok route_data =>
      let route : Route :=
        { trip_id := trip0.id
          polyline := route_data.polyline.getD ""
          total_distance := route_data.total_distance_miles.getD 0
          estimated_duration := route_data.total_duration_hours.getD 0 }
      let stop_definitions :=
        build_stop_definitions [start_location, pickup_location, dropoff_location]
      let segs := route_data.segments
      let filled := stop_definitions.mapIdx fun idx sd =>
        if idx = 0 then sd
        else
          match segs[idx - 1]? with
          | some seg =>
            { sd with
                distance_from_previous := seg.distance_miles.getD 0
                duration_from_previous := segmentDurationHours seg }
          | none => { sd with distance_from_previous := 0, duration_from_previous := 0 }
      let legs_payload : List ItineraryLeg :=
        (List.range (stop_definitions.length - 1)).filterMap fun i =>
          match filled[i]?, filled[i+1]? with
          | some a, some b =>
            some { sequence := i + 1
                   from_stop_type := a.stop_type
                   to_stop_type := b.stop_type
                   from_location := a.location
                   to_location := b.location
                   distance_miles := b.distance_from_previous
                   duration_hours := b.duration_from_previous }
          | _, _ => none
      let stop_records : List Stop := filled.mapIdx fun index d =>
        { route_id := trip0.id
          stop_type := d.stop_type
          location := d.location
          duration_minutes := 0
          sequence := index + 1
          distance_from_previous := d.distance_from_previous
          duration_from_previous := d.duration_from_previous }
      let summary : ItinerarySummary :=
        { legs := legs_payload
          total_distance_miles := route.total_distance
          total_duration_hours := route.estimated_duration
          hos_alerts := [] }
      let trip : Trip :=
        { trip0 with
            total_miles := route.total_distance
            total_hours := route.estimated_duration }
      ({ trips := trip :: db.trips
         routes := route :: db.routes
         stops := db.stops ++ stop_records
         itineraries := (trip.id, summary) :: db.itineraries
         next_trip_id := db.next_trip_id + 1 },
       .ok trip)

/-! ## Background job state machine (`process_pending_trip_jobs`) -/

/-- `BackgroundJob` row.  `payload` is the serialized trip request; the job
list itself is kept in `created_at` ascending order (jobs are appended on
enqueue), which models `order_by('created_at')`. -/
structure BackgroundJob where
  id : Nat
  user : Option Nat := none
  job_type : String := "PLAN_TRIP"
  status : String := "PENDING"
  result_trip_id : Option Nat := none
  error_message : String := ""
deriving Repr, DecidableEq

/-- Run one job to its terminal state: `mark_success` on a planned trip,
`mark_failed` (message truncated to 2048 characters) on a
`TripPlanningError` or on any unexpected exception — both except-arms of
the batch loop.  `run_trip` abstracts `_run_trip_job`'s outcome. -/
def finishJob (run_trip : BackgroundJob → Except String Nat)
    (job : BackgroundJob) : BackgroundJob :=
  match run_trip job with
  | .ok trip_id =>
    { job with status := "SUCCESS", result_trip_id := some trip_id }
  | .error msg =>
    { job with status := "FAILED", error_message := msg.take 2048 }

/-- The batch selection: pending PLAN_TRIP jobs in creation order, up to
`limit`. -/
def pendingSelection (jobs : List BackgroundJob) (limit : Nat) : List BackgroundJob :=
  (jobs.filter fun j => j.job_type = "PLAN_TRIP" ∧ j.status = "PENDING").take limit

/-- `process_pending_trip_jobs`: every selected job is marked RUNNING and
then driven to SUCCESS or FAILED independently of the other jobs'
outcomes; the returned list is the whole store after the batch. -/
def process_pending_trip_jobs (jobs : List BackgroundJob)
    (run_trip : BackgroundJob → Except String Nat) (limit : Nat) :
    List BackgroundJob :=
  let selected := pendingSelection jobs limit
  jobs.map fun j =>
    if selected.any (fun s => s.id = j.id) then finishJob run_trip j else j

/-! ## Trip status mutation (`UpdateTripStatus.mutate` in `schema/mutations.py`) -/

/-- The mutation payload fields the claims observe. -/
structure MutationResult where
  success : Bool
  errors : List String
deriving Repr, DecidableEq

def TRIP_VALID_STATUSES : List String :=
  ["PLANNED", "IN_PROGRESS", "COMPLETED", "CANCELLED"]

/-- Python `str.strip()` (whitespace at both ends removed), written as
structural recursion over the character list. -/
def pyStrip (s : String) : String :=
  ⟨(((s.data.dropWhile fun c => c = ' ' ∨ c = '\t' ∨ c = '\n' ∨ c = '\r').reverse.dropWhile
      fun c => c = ' ' ∨ c = '\t' ∨ c = '\n' ∨ c = '\r').reverse)⟩

/-- Python `str.upper()` over the character list. -/
def pyUpper (s : String) : String :=
  ⟨s.data.map Char.toUpper⟩

/-- `UpdateTripStatus.mutate`: returns the store after the mutation and the
GraphQL payload. -/
def update_trip_status (db : List Trip) (user : Nat) (trip_id : Nat)
    (status : String) : List Trip × MutationResult :=
  match db.find? (fun t => t.id = trip_id ∧ t.user = user) with
  | none => (db, ⟨false, ["Trip not found"]⟩)
  | some trip =>
    let normalised_status := pyUpper (pyStrip status)
    if normalised_status ∉ TRIP_VALID_STATUSES then
      (db, ⟨false, ["Invalid status value"]⟩)
    else if normalised_status = "IN_PROGRESS" ∧
        db.any (fun t => t.user = user ∧ t.status = "IN_PROGRESS" ∧ t.id ≠ trip.id) then
      (db, ⟨false, ["Another trip is already in progress"]⟩)
    else if trip.status = "IN_PROGRESS" ∧
        normalised_status ≠ "IN_PROGRESS" ∧ normalised_status ≠ "COMPLETED" then
      (db, ⟨false, ["Routes already in progress can only be marked as completed."]⟩)
    else if trip.status ≠ "PLANNED" ∧ normalised_status = "PLANNED" then
      (db, ⟨false, ["Only routes still in planning can be marked as planned."]⟩)
    else
      (db.map fun t => if t.id = trip.id then { t with status := normalised_status } else t,
       ⟨true, []⟩)

/-! # Theorems -/

/-! ## Rounding facts -/

theorem pyRound_le_half (q : ℚ) : (pyRound q : ℚ) ≤ q + 1/2 := by
  have hf : (⌊q⌋ : ℚ) ≤ q := Int.floor_le q
  unfold pyRound
  split_ifs with h1 h2 h3 <;> push_cast <;> linarith

theorem pyRound_le_of_le (x : ℚ) (n : ℤ) (h : x ≤ n) : pyRound x ≤ n := by
  have h1 := pyRound_le_half x
  have h2 : (pyRound x : ℚ) < (n : ℚ) + 1 := by linarith
  have h3 : pyRound x < n + 1 := by exact_mod_cast h2
  omega

/-! ## HOS scheduler lemmas -/

theorem hosPlannedHours_bounds (fuel : Nat) :
    ∀ rh rc : ℚ, ∀ pr ∈ hosPlannedHours fuel rh rc,
      pr.1 ≤ DRIVING_LIMIT_PER_DAY ∧ pr.2 ≤ ON_DUTY_LIMIT_PER_DAY := by
  induction fuel with
  | zero => intro rh rc pr hpr; simp [hosPlannedHours] at hpr
  | succ n ih =>
    intro rh rc pr hpr
    rw [hosPlannedHours] at hpr
    split at hpr
    · rcases List.mem_cons.mp hpr with h | h
      · subst h
        constructor
        · exact min_le_left _ _
        · exact le_trans (min_le_right _ _) (min_le_left _ _)
      · exact ih _ _ pr h
    · simp at hpr

theorem hosPlannedHours_sum_le (fuel : Nat) :
    ∀ rh rc : ℚ, 0 ≤ rh →
      ((hosPlannedHours fuel rh rc).map Prod.fst).sum ≤ rh := by
  induction fuel with
  | zero => intro rh rc h; simp [hosPlannedHours]; exact h
  | succ n ih =>
    intro rh rc h
    rw [hosPlannedHours]
    split
    · rename_i hguard
      simp only [List.map_cons, List.sum_cons]
      have hdle : min DRIVING_LIMIT_PER_DAY (min rh rc) ≤ rh :=
        le_trans (min_le_right _ _) (min_le_left _ _)
      have htail := ih (rh - min DRIVING_LIMIT_PER_DAY (min rh rc))
        (rc - min (min DRIVING_LIMIT_PER_DAY (min rh rc) + ON_DUTY_BUFFER_HOURS)
              (min ON_DUTY_LIMIT_PER_DAY rc))
        (by linarith)
      linarith
    · simp; exact h

theorem hosLoop_map_driving (fuel : Nat) :
    ∀ (rh rc : ℚ) (day : Nat),
      (hosLoop fuel rh rc day).map (·.total_driving_minutes) =
        (hosPlannedHours fuel rh rc).map (fun pr => pyRound (pr.1 * 60)) := by
  induction fuel with
  | zero => intro rh rc day; simp [hosLoop, hosPlannedHours]
  | succ n ih =>
    intro rh rc day
    rw [hosLoop, hosPlannedHours]
    split
    · simp only [List.map_cons]
      rw [ih]
    · simp

theorem hosLoop_day_bounds (fuel : Nat) :
    ∀ (rh rc : ℚ) (day : Nat), ∀ d ∈ hosLoop fuel rh rc day,
      d.total_driving_minutes ≤ 660 ∧ d.total_on_duty_minutes ≤ 840 := by
  induction fuel with
  | zero => intro rh rc day d hd; simp [hosLoop] at hd
  | succ n ih =>
    intro rh rc day d hd
    rw [hosLoop] at hd
    split at hd
    · rcases List.mem_cons.mp hd with h | h
      · subst h
        constructor
        · refine pyRound_le_of_le _ 660 ?_
          have hle : min DRIVING_LIMIT_PER_DAY (min rh rc) ≤ 11 := by
            rw [show DRIVING_LIMIT_PER_DAY = (11 : ℚ) from rfl]
            exact min_le_left _ _
          push_cast
          linarith
        · refine pyRound_le_of_le _ 840 ?_
          have hle : min (min DRIVING_LIMIT_PER_DAY (min rh rc) + ON_DUTY_BUFFER_HOURS)
              (min ON_DUTY_LIMIT_PER_DAY rc) ≤ 14 := by
            rw [show ON_DUTY_LIMIT_PER_DAY = (14 : ℚ) from rfl]
            exact le_trans (min_le_right _ _) (min_le_left _ _)
          push_cast
          linarith
      · exact ih _ _ _ d h
    · simp at hd

/-- C1: for `total_trip_hours ≥ 0` and `0 ≤ cycle_hours_used < 70`, every
day emitted by `generate_driver_logs` plans at most 11 driving hours (660
minutes) and at most 14 on-duty hours (840 minutes); the emitted driving
minutes are exactly the minute rounding of the loop's planned driving
hours, and those planned driving hours sum to at most
`min total_trip_hours (70 - cycle_hours_used)` (the ε slack of the claim
is not even needed: the bound is exact in exact arithmetic). -/
theorem hos_daily_limits (total c : ℚ) (htotal : 0 ≤ total) (hc0 : 0 ≤ c)
    (hc : c < 70) (days : List DailyHosSummary)
    (hok : generate_driver_logs total c = .ok days) :
    (∀ d ∈ days, d.total_driving_minutes ≤ 660 ∧ d.total_on_duty_minutes ≤ 840) ∧
    (∀ pr ∈ plannedHoursOf total c, pr.1 ≤ 11 ∧ pr.2 ≤ 14) ∧
    days.map (·.total_driving_minutes) =
      (plannedHoursOf total c).map (fun pr => pyRound (pr.1 * 60)) ∧
    ((plannedHoursOf total c).map Prod.fst).sum ≤ min total (70 - c) := by
  have h1 : ¬(total < 0) := not_lt.mpr htotal
  have hrc : max (CYCLE_LIMIT_HOURS - c) 0 = 70 - c := by
    rw [show CYCLE_LIMIT_HOURS = (70 : ℚ) from rfl]
    exact max_eq_left (by linarith)
  have h2 : ¬(max (CYCLE_LIMIT_HOURS - c) 0 ≤ 0) := by
    rw [hrc]; push_neg; linarith
  rw [generate_driver_logs, if_neg h1] at hok
  simp only [if_neg h2] at hok
  split at hok
  · exact absurd hok (by simp)
  · rename_i hpos
    have hdays : days =
        hosLoop (hosFuel (max (CYCLE_LIMIT_HOURS - c) 0))
          (min total (max (CYCLE_LIMIT_HOURS - c) 0))
          (max (CYCLE_LIMIT_HOURS - c) 0) 1 := by
      exact (Except.ok.inj hok).symm
    refine ⟨?_, ?_, ?_, ?_⟩
    · intro d hd
      rw [hdays] at hd
      exact hosLoop_day_bounds _ _ _ _ d hd
    · intro pr hpr
      have := hosPlannedHours_bounds _ _ _ pr hpr
      exact ⟨this.1, this.2⟩
    · rw [hdays, plannedHoursOf]
      exact hosLoop_map_driving _ _ _ _
    · have hmin : (0:ℚ) ≤ min total (max (CYCLE_LIMIT_HOURS - c) 0) := by
        refine le_min htotal ?_
        rw [hrc]; linarith
      have := hosPlannedHours_sum_le (hosFuel (max (CYCLE_LIMIT_HOURS - c) 0))
        (min total (max (CYCLE_LIMIT_HOURS - c) 0))
        (max (CYCLE_LIMIT_HOURS - c) 0) hmin
      rw [plannedHoursOf]
      calc ((hosPlannedHours _ _ _).map Prod.fst).sum
          ≤ min total (max (CYCLE_LIMIT_HOURS - c) 0) := this
        _ = min total (70 - c) := by rw [hrc]

/-- C1 witness: a concrete half-hour trip with 69 cycle hours used. -/
theorem hos_daily_limits_witness :
    (0:ℚ) ≤ 1/2 ∧ (0:ℚ) ≤ 69 ∧ (69:ℚ) < 70 ∧
    ((∀ d ∈ [(⟨1, 30, 60, 600, 0, 0,
          [⟨"ON_DUTY", 30, "Pre/post-trip activities"⟩, ⟨"DRIVING", 30, "Planned driving"⟩,
           ⟨"OFF_DUTY", 600, "Rest"⟩]⟩ : DailyHosSummary)],
        d.total_driving_minutes ≤ 660 ∧ d.total_on_duty_minutes ≤ 840) ∧
      (∀ pr ∈ plannedHoursOf (1/2) 69, pr.1 ≤ 11 ∧ pr.2 ≤ 14) ∧
      [(⟨1, 30, 60, 600, 0, 0,
          [⟨"ON_DUTY", 30, "Pre/post-trip activities"⟩, ⟨"DRIVING", 30, "Planned driving"⟩,
           ⟨"OFF_DUTY", 600, "Rest"⟩]⟩ : DailyHosSummary)].map (·.total_driving_minutes) =
        (plannedHoursOf (1/2) 69).map (fun pr => pyRound (pr.1 * 60)) ∧
      ((plannedHoursOf (1/2) 69).map Prod.fst).sum ≤ min (1/2) (70 - 69)) :=
  ⟨by norm_num, by norm_num, by norm_num,
    hos_daily_limits (1/2) 69 (by norm_num) (by norm_num) (by norm_num) _
      (by norm_num [generate_driver_logs, CYCLE_LIMIT_HOURS, hosFuel, hosLoop, pyRound,
        DRIVING_LIMIT_PER_DAY, ON_DUTY_LIMIT_PER_DAY, MANDATORY_OFF_DUTY_HOURS,
        ON_DUTY_BUFFER_HOURS, min_def, max_def])⟩

/-- C5: with the whole 70-hour cycle consumed (`cycle_hours_used ≥ 70`) and
a non-negative trip duration, `generate_driver_logs` raises the
cycle-exhausted `HOSComputationError` and emits no daily plans. -/
theorem cycle_exhausted_rejects (total c : ℚ) (h70 : 70 ≤ c) (h0 : 0 ≤ total) :
    generate_driver_logs total c =
      .error "Driver has exhausted the 70-hour cycle. Trip cannot be scheduled." := by
  have h1 : ¬(total < 0) := not_lt.mpr h0
  have h2 : max (CYCLE_LIMIT_HOURS - c) 0 ≤ 0 := by
    refine max_le ?_ le_rfl
    rw [show CYCLE_LIMIT_HOURS = (70 : ℚ) from rfl]
    linarith
  rw [generate_driver_logs, if_neg h1]
  simp only [if_pos h2]

/-- C5 witness at `total_trip_hours = 5`, `cycle_hours_used = 70`. -/
theorem cycle_exhausted_rejects_witness :
    (70:ℚ) ≤ 70 ∧ (0:ℚ) ≤ 5 ∧
    generate_driver_logs 5 70 =
      .error "Driver has exhausted the 70-hour cycle. Trip cannot be scheduled." :=
  ⟨by norm_num, by norm_num, cycle_exhausted_rejects 5 70 (by norm_num) (by norm_num)⟩

/-- C2 counterexample: a daily plan with exactly 11.0 hours of driving
(660 minutes) does NOT escape the 11-hour rule check — the evaluator emits
a warning-level alert for that rule (`driving ≥ 0.95 × 11` holds at 11.0),
contradicting the claim that no alert is emitted at exactly 11.0. -/
theorem alert_exact_limit_counterexample :
    (evaluate_hos_alerts [{ day_number := 1, total_driving_minutes := some 660 }] 0).filter
        (fun a => a.rule = "11-hour driving limit") =
      [⟨"warning", "11-hour driving limit", some 1⟩] := by
  norm_num [evaluate_hos_alerts, dayAlerts, payloadDrivingMinutes, payloadOnDutyMinutes,
    payloadOnDutyHoursForCycle, HOS_EPS, DRIVING_LIMIT_PER_DAY, ON_DUTY_LIMIT_PER_DAY,
    CYCLE_LIMIT_HOURS, List.filter]

/-- C2 (amended): the evaluator's 11-hour-rule alerts at driving totals of
11.0, 10.5 and 11.5 hours are, respectively, a warning (not silence), a
warning, and a danger alert. -/
theorem alert_driving_levels :
    (evaluate_hos_alerts [{ day_number := 1, total_driving_minutes := some 660 }] 0).filter
        (fun a => a.rule = "11-hour driving limit") =
      [⟨"warning", "11-hour driving limit", some 1⟩] ∧
    (evaluate_hos_alerts [{ day_number := 1, total_driving_minutes := some 630 }] 0).filter
        (fun a => a.rule = "11-hour driving limit") =
      [⟨"warning", "11-hour driving limit", some 1⟩] ∧
    (evaluate_hos_alerts [{ day_number := 1, total_driving_minutes := some 690 }] 0).filter
        (fun a => a.rule = "11-hour driving limit") =
      [⟨"danger", "11-hour driving limit", some 1⟩] := by
  refine ⟨?_, ?_, ?_⟩ <;>
    norm_num [evaluate_hos_alerts, dayAlerts, payloadDrivingMinutes, payloadOnDutyMinutes,
      payloadOnDutyHoursForCycle, HOS_EPS, DRIVING_LIMIT_PER_DAY, ON_DUTY_LIMIT_PER_DAY,
      CYCLE_LIMIT_HOURS, List.filter]

/-! ## Trip orchestration pipeline -/

/-- C3: when the routing collaborator fails, `plan_trip_for_user` leaves
the store exactly as it was — the Trip row created at the top of the
atomic block, and any Route/Stop, do not persist — and raises a
`TripPlanningError` carrying the collaborator's error message. -/
theorem routing_failure_rolls_back (db : PlanDB) (user : Nat)
    (start_location pickup_location dropoff_location : Location)
    (cycle_hours_used : ℚ) (route_outcome : Except String RouteData) (msg : String)
    (hfail : route_outcome = .error msg) :
    plan_trip_for_user db (some user) start_location pickup_location dropoff_location
      cycle_hours_used route_outcome = (db, .error msg) := by
  subst hfail
  rfl

/-- C3 witness: an empty store, a concrete failing collaborator. -/
theorem routing_failure_rolls_back_witness :
    plan_trip_for_user ⟨[], [], [], [], 1⟩ (some 1) {} {} {} 0
        (.error "Routing service unavailable") =
      (⟨[], [], [], [], 1⟩, .error "Routing service unavailable") :=
  routing_failure_rolls_back ⟨[], [], [], [], 1⟩ 1 {} {} {} 0
    (.error "Routing service unavailable") "Routing service unavailable" rfl

/-! ## Background job state machine -/

theorem finishJob_id (run_trip : BackgroundJob → Except String Nat)
    (j : BackgroundJob) : (finishJob run_trip j).id = j.id := by
  cases hrun : run_trip j <;> simp [finishJob, hrun]

theorem finishJob_terminal (run_trip : BackgroundJob → Except String Nat)
    (j : BackgroundJob) :
    (finishJob run_trip j).status = "SUCCESS" ∨ (finishJob run_trip j).status = "FAILED" := by
  cases hrun : run_trip j
  · right; simp [finishJob, hrun]
  · left; simp [finishJob, hrun]

theorem find_map_of_nodup (jobs : List BackgroundJob)
    (f : BackgroundJob → BackgroundJob) (hf : ∀ x, (f x).id = x.id)
    (hids : (jobs.map (·.id)).Nodup) (j : BackgroundJob) (hj : j ∈ jobs) :
    (jobs.map f).find? (fun x => x.id = j.id) = some (f j) := by
  induction jobs with
  | nil => simp at hj
  | cons a rest ih =>
    rw [List.map_cons]
    rcases List.mem_cons.mp hj with rfl | hmem
    · rw [List.find?_cons_of_pos]
      simp [hf]
    · have hane : a.id ∉ rest.map (·.id) :=
        (List.nodup_cons.mp (by simpa using hids)).1
      have hne : ¬(a.id = j.id) := by
        intro he
        exact hane (he ▸ List.mem_map_of_mem (·.id) hmem)
      rw [List.find?_cons_of_neg]
      · exact ih (List.nodup_cons.mp (by simpa using hids)).2 hmem
      · simp [hf, hne]

theorem pendingSelection_subset (jobs : List BackgroundJob) (limit : Nat) :
    ∀ j ∈ pendingSelection jobs limit, j ∈ jobs := by
  intro j hj
  exact List.mem_of_mem_filter (List.take_subset _ _ hj)

/-- C6: every PENDING `PLAN_TRIP` job selected by a batch run (up to
`limit`, in creation order) ends the run in the store with status SUCCESS
or FAILED — its terminal row is exactly `finishJob` of its own outcome, so
one job's failure cannot affect how the others are processed. -/
theorem batch_jobs_reach_terminal (jobs : List BackgroundJob)
    (run_trip : BackgroundJob → Except String Nat) (limit : Nat)
    (hids : (jobs.map (·.id)).Nodup) :
    ∀ j ∈ pendingSelection jobs limit,
      (process_pending_trip_jobs jobs run_trip limit).find? (fun x => x.id = j.id) =
        some (finishJob run_trip j) ∧
      ((finishJob run_trip j).status = "SUCCESS" ∨
        (finishJob run_trip j).status = "FAILED") := by
  intro j hj
  refine ⟨?_, finishJob_terminal run_trip j⟩
  have hjmem : j ∈ jobs := pendingSelection_subset jobs limit j hj
  have hf : ∀ x : BackgroundJob,
      ((if (pendingSelection jobs limit).any (fun s => s.id = x.id) then
          finishJob run_trip x else x)).id = x.id := by
    intro x
    split
    · exact finishJob_id run_trip x
    · rfl
  have hsel : (pendingSelection jobs limit).any (fun s => s.id = j.id) = true :=
    List.any_eq_true.mpr ⟨j, hj, by simp⟩
  have := find_map_of_nodup jobs
    (fun x => if (pendingSelection jobs limit).any (fun s => s.id = x.id) then
        finishJob run_trip x else x) hf hids j hjmem
  rw [process_pending_trip_jobs]
  rw [this]
  simp only [hsel, if_true]

/-- C6 witness: two pending jobs, the first one failing; the second is
still processed and reaches SUCCESS. -/
theorem batch_jobs_reach_terminal_witness :
    ((process_pending_trip_jobs
        [⟨1, some 1, "PLAN_TRIP", "PENDING", none, ""⟩,
         ⟨2, some 1, "PLAN_TRIP", "PENDING", none, ""⟩]
        (fun j => if j.id = 1 then .error "boom" else .ok 7) 10).find?
        (fun x => x.id = (⟨2, some 1, "PLAN_TRIP", "PENDING", none, ""⟩ : BackgroundJob).id) =
      some (finishJob (fun j => if j.id = 1 then .error "boom" else .ok 7)
        ⟨2, some 1, "PLAN_TRIP", "PENDING", none, ""⟩)) ∧
    ((finishJob (fun j => if j.id = 1 then .error "boom" else .ok 7)
        ⟨2, some 1, "PLAN_TRIP", "PENDING", none, ""⟩).status = "SUCCESS" ∨
     (finishJob (fun j => if j.id = 1 then .error "boom" else .ok 7)
        ⟨2, some 1, "PLAN_TRIP", "PENDING", none, ""⟩).status = "FAILED") :=
  batch_jobs_reach_terminal
    [⟨1, some 1, "PLAN_TRIP", "PENDING", none, ""⟩,
     ⟨2, some 1, "PLAN_TRIP", "PENDING", none, ""⟩]
    (fun j => if j.id = 1 then .error "boom" else .ok 7) 10 (by decide)
    ⟨2, some 1, "PLAN_TRIP", "PENDING", none, ""⟩ (by decide)

/-! ## Trip status mutation -/

theorem countP_trip_one_id (db : List Trip) (tid : Nat)
    (hids : (db.map (·.id)).Nodup) :
    db.countP (fun t => t.id = tid) ≤ 1 := by
  induction db with
  | nil => simp
  | cons a rest ih =>
    rw [List.map_cons, List.nodup_cons] at hids
    rw [List.countP_cons]
    by_cases ha : a.id = tid
    · have hzero : rest.countP (fun t => t.id = tid) = 0 := by
        rw [List.countP_eq_zero]
        intro t ht
        simp only [decide_eq_true_eq]
        intro he
        have hmem : t.id ∈ rest.map (·.id) := List.mem_map_of_mem (·.id) ht
        rw [he, ← ha] at hmem
        exact hids.1 hmem
      simp [ha, hzero]
    · have := ih hids.2
      simpa [ha] using this


/-- Setting the status of the (unique) trip `trip` to `norm` keeps the
per-user count of IN_PROGRESS trips at most one, provided the mutation's
guard held when `norm` is IN_PROGRESS. -/
theorem countP_update_status_le (db : List Trip) (trip : Trip) (norm : String) (u : Nat)
    (hids : (db.map (·.id)).Nodup) (htripmem : trip ∈ db)
    (hguard : norm = "IN_PROGRESS" →
      ∀ t ∈ db, ¬(t.user = trip.user ∧ t.status = "IN_PROGRESS" ∧ t.id ≠ trip.id))
    (hprev : db.countP (fun t => t.user = u ∧ t.status = "IN_PROGRESS") ≤ 1) :
    (db.map fun t => if t.id = trip.id then { t with status := norm } else t).countP
      (fun t => t.user = u ∧ t.status = "IN_PROGRESS") ≤ 1 := by
  rw [List.countP_map]
  by_cases hip : norm = "IN_PROGRESS"
  · by_cases hu : u = trip.user
    · subst hu
      refine le_trans (List.countP_mono_left ?_) (countP_trip_one_id db trip.id hids)
      intro t ht hpt
      simp only [Function.comp_apply, decide_eq_true_eq] at hpt
      simp only [decide_eq_true_eq]
      by_cases hid : t.id = trip.id
      · exact hid
      · exfalso
        rw [if_neg hid] at hpt
        exact hguard hip t ht ⟨hpt.1, hpt.2, hid⟩
    · refine le_trans (List.countP_mono_left ?_) hprev
      intro t ht hpt
      simp only [Function.comp_apply, decide_eq_true_eq] at hpt
      simp only [decide_eq_true_eq]
      by_cases hid : t.id = trip.id
      · exfalso
        rw [if_pos hid] at hpt
        have hteq : t = trip :=
          List.inj_on_of_nodup_map hids ht htripmem (by simpa using hid)
        apply hu
        have htu : t.user = u := by simpa using hpt.1
        rw [← htu, hteq]
      · rw [if_neg hid] at hpt
        exact hpt
  · refine le_trans (List.countP_mono_left ?_) hprev
    intro t ht hpt
    simp only [Function.comp_apply, decide_eq_true_eq] at hpt
    simp only [decide_eq_true_eq]
    by_cases hid : t.id = trip.id
    · exfalso
      rw [if_pos hid] at hpt
      exact hip (by simpa using hpt.2)
    · rw [if_neg hid] at hpt
      exact hpt

/-- C7: (a) a request to move a trip to IN_PROGRESS while another trip of
the same user is already IN_PROGRESS fails with "Another trip is already
in progress" and leaves the store (hence the trip's status) unchanged;
(b) every status update preserves the at-most-one-IN_PROGRESS-trip-per-user
invariant, for every user. -/
theorem second_active_trip_refused (db : List Trip) (user trip_id : Nat)
    (status : String) (hids : (db.map (·.id)).Nodup) :
    (∀ trip, db.find? (fun t => t.id = trip_id ∧ t.user = user) = some trip →
      pyUpper (pyStrip status) = "IN_PROGRESS" →
      (∃ t ∈ db, t.user = user ∧ t.status = "IN_PROGRESS" ∧ t.id ≠ trip.id) →
      update_trip_status db user trip_id status =
        (db, ⟨false, ["Another trip is already in progress"]⟩)) ∧
    (∀ u, db.countP (fun t => t.user = u ∧ t.status = "IN_PROGRESS") ≤ 1 →
      (update_trip_status db user trip_id status).1.countP
        (fun t => t.user = u ∧ t.status = "IN_PROGRESS") ≤ 1) := by
  constructor
  · intro trip hfind hnorm hother
    have hany : db.any
        (fun t => t.user = user ∧ t.status = "IN_PROGRESS" ∧ t.id ≠ trip.id) = true := by
      rcases hother with ⟨t, ht, h1, h2, h3⟩
      exact List.any_eq_true.mpr ⟨t, ht, by simp [h1, h2, h3]⟩
    simp only [update_trip_status, hfind, hnorm]
    rw [if_neg (by decide : ¬("IN_PROGRESS" ∉ TRIP_VALID_STATUSES))]
    rw [if_pos ⟨trivial, hany⟩]
  · intro u hprev
    cases hfind : db.find? (fun t => t.id = trip_id ∧ t.user = user) with
    | none =>
      simp only [update_trip_status, hfind]
      exact hprev
    | some trip =>
      have htripmem : trip ∈ db := List.mem_of_find?_eq_some hfind
      have htripuser : trip.user = user := by
        have := List.find?_some hfind
        simp only [decide_eq_true_eq] at this
        exact this.2
      simp only [update_trip_status, hfind]
      split_ifs with h1 h2 h3 h4
      · exact hprev
      · exact hprev
      · exact hprev
      · refine countP_update_status_le db trip (pyUpper (pyStrip status)) u hids htripmem
          ?_ hprev
        intro hip t ht hcontra
        rw [htripuser] at hcontra
        exact h2 ⟨hip, List.any_eq_true.mpr ⟨t, ht, by simpa using hcontra⟩⟩
      · exact hprev

/-- C7 witness: user 1 already has trip 1 IN_PROGRESS; setting trip 2 to
IN_PROGRESS is refused and the store is unchanged. -/
theorem second_active_trip_refused_witness :
    update_trip_status
        [⟨1, 1, "IN_PROGRESS", 0, {}, {}, {}, 0, 0⟩, ⟨2, 1, "PLANNED", 0, {}, {}, {}, 0, 0⟩]
        1 2 "IN_PROGRESS" =
      ([⟨1, 1, "IN_PROGRESS", 0, {}, {}, {}, 0, 0⟩, ⟨2, 1, "PLANNED", 0, {}, {}, {}, 0, 0⟩],
        ⟨false, ["Another trip is already in progress"]⟩) :=
  (second_active_trip_refused
      [⟨1, 1, "IN_PROGRESS", 0, {}, {}, {}, 0, 0⟩, ⟨2, 1, "PLANNED", 0, {}, {}, {}, 0, 0⟩]
      1 2 "IN_PROGRESS" (by decide)).1
    ⟨2, 1, "PLANNED", 0, {}, {}, {}, 0, 0⟩ (by decide) (by decide)
    ⟨⟨1, 1, "IN_PROGRESS", 0, {}, {}, {}, 0, 0⟩, by decide, by decide, by decide, by decide⟩

/-- C9: with the target trip found and a valid normalised status value, a
status update succeeds exactly when none of the three refusals applies:
entering IN_PROGRESS with another active trip of the same user, leaving
IN_PROGRESS for anything but IN_PROGRESS/COMPLETED, and entering PLANNED
from a non-PLANNED status.  In particular COMPLETED and CANCELLED are not
terminal: they may move to IN_PROGRESS (absent another active trip) or
COMPLETED. -/
theorem trip_status_transition_rules (db : List Trip) (user trip_id : Nat)
    (status : String) (trip : Trip)
    (hfind : db.find? (fun t => t.id = trip_id ∧ t.user = user) = some trip)
    (hvalid : pyUpper (pyStrip status) ∈ TRIP_VALID_STATUSES) :
    (update_trip_status db user trip_id status).2.success = true ↔
      (¬(pyUpper (pyStrip status) = "IN_PROGRESS" ∧
          db.any (fun t => t.user = user ∧ t.status = "IN_PROGRESS" ∧ t.id ≠ trip.id) = true) ∧
       ¬(trip.status = "IN_PROGRESS" ∧ pyUpper (pyStrip status) ≠ "IN_PROGRESS" ∧
          pyUpper (pyStrip status) ≠ "COMPLETED") ∧
       ¬(trip.status ≠ "PLANNED" ∧ pyUpper (pyStrip status) = "PLANNED")) := by
  simp only [update_trip_status, hfind]
  rw [if_neg (not_not_intro hvalid)]
  split_ifs with h2 h3 h4
  · exact iff_of_false (by simp) (fun hc => hc.1 h2)
  · exact iff_of_false (by simp) (fun hc => hc.2.1 h3)
  · exact iff_of_false (by simp) (fun hc => hc.2.2 h4)
  · exact iff_of_true rfl ⟨h2, h3, h4⟩

/-- C9 witness: a COMPLETED trip with no other active trip moves back to
IN_PROGRESS. -/
theorem trip_status_transition_rules_witness :
    (update_trip_status [⟨1, 1, "COMPLETED", 0, {}, {}, {}, 0, 0⟩] 1 1 "IN_PROGRESS").2.success
      = true :=
  (trip_status_transition_rules [⟨1, 1, "COMPLETED", 0, {}, {}, {}, 0, 0⟩] 1 1 "IN_PROGRESS"
      ⟨1, 1, "COMPLETED", 0, {}, {}, {}, 0, 0⟩ (by decide) (by decide)).mpr (by decide)

/-! ## Duty segment validator lemmas -/

theorem parse_time_error_validation (label : String) (v : Option Nat) (e : LogError)
    (h : parse_time label v = .error e) : e = .validation ("Missing " ++ label) := by
  cases v with
  | none => simpa [parse_time] using h.symm
  | some t => simp [parse_time] at h

theorem validate_error_validation (s : SegmentInput) (e : LogError)
    (h : s.validate = .error e) : ∃ m, e = .validation m := by
  rw [SegmentInput.validate] at h
  split_ifs at h <;> exact ⟨_, (Except.error.inj h).symm⟩

theorem validate_ok_facts (s : SegmentInput) (h : s.validate = .ok ()) :
    s.status ∈ VALID_STATUSES ∧ s.start_time < s.end_time ∧
      s.duration_minutes % 15 = 0 := by
  rw [SegmentInput.validate] at h
  split_ifs at h with h1 h2 h3
  exact ⟨h1, lt_of_not_le h2, not_not.mp h3⟩

theorem normalise_segments_error_validation (raw : List RawSegment) (e : LogError)
    (h : normalise_segments raw = .error e) : ∃ m, e = .validation m := by
  induction raw generalizing e with
  | nil => simp [normalise_segments] at h
  | cons r rest ih =>
    rw [normalise_segments] at h
    cases hst : parse_time "startTime" r.startTime with
    | error e1 =>
      rw [hst] at h
      cases h
      exact ⟨_, parse_time_error_validation _ _ _ hst⟩
    | ok st =>
      rw [hst] at h
      dsimp only [] at h
      cases hen : parse_time "endTime" r.endTime with
      | error e1 =>
        rw [hen] at h
        cases h
        exact ⟨_, parse_time_error_validation _ _ _ hen⟩
      | ok en =>
        rw [hen] at h
        dsimp only [] at h
        cases hval : (buildSegment r st en).validate with
        | error e1 =>
          rw [hval] at h
          cases h
          exact validate_error_validation _ _ hval
        | ok u =>
          cases u
          rw [hval] at h
          dsimp only [] at h
          cases htail : normalise_segments rest with
          | error e1 =>
            rw [htail] at h
            cases h
            exact ih _ htail
          | ok tail =>
            rw [htail] at h
            simp at h

theorem normalise_segments_ok (raw : List RawSegment) (segs : List SegmentInput)
    (h : normalise_segments raw = .ok segs) :
    segs.map (fun s => (s.start_time, s.end_time)) = segTimesOf raw ∧
      ∀ s ∈ segs, s.validate = .ok () := by
  induction raw generalizing segs with
  | nil =>
    rw [normalise_segments] at h
    cases h
    simp [segTimesOf]
  | cons r rest ih =>
    rw [normalise_segments] at h
    cases hst : parse_time "startTime" r.startTime with
    | error e1 => rw [hst] at h; cases h
    | ok st =>
      rw [hst] at h
      dsimp only [] at h
      cases hen : parse_time "endTime" r.endTime with
      | error e1 => rw [hen] at h; cases h
      | ok en =>
        rw [hen] at h
        dsimp only [] at h
        cases hval : (buildSegment r st en).validate with
        | error e1 => rw [hval] at h; cases h
        | ok u =>
          cases u
          rw [hval] at h
          dsimp only [] at h
          cases htail : normalise_segments rest with
          | error e1 => rw [htail] at h; cases h
          | ok tail =>
            rw [htail] at h
            cases h
            obtain ⟨htimes, hvalid⟩ := ih tail htail
            constructor
            · have hst2 : r.startTime = some st := by
                cases hv : r.startTime with
                | none => rw [hv] at hst; simp [parse_time] at hst
                | some t =>
                  rw [hv] at hst
                  simp [parse_time] at hst
                  rw [hst]
              have hen2 : r.endTime = some en := by
                cases hv : r.endTime with
                | none => rw [hv] at hen; simp [parse_time] at hen
                | some t =>
                  rw [hv] at hen
                  simp [parse_time] at hen
                  rw [hen]
              rw [List.map_cons, htimes]
              simp [buildSegment, hst2, hen2, segTimesOf]
            · intro s hs
              rcases List.mem_cons.mp hs with rfl | hmem
              · exact hval
              · exact hvalid s hmem

theorem accumulateSegments_error_validation (segs : List SegmentInput) :
    ∀ (prev : Option Nat) (totals : DutyTotals) (cursor : ℤ) (e : LogError),
      accumulateSegments prev totals cursor segs = .error e →
      e = .validation "Duty segments may not overlap" := by
  induction segs with
  | nil => intro prev totals cursor e h; simp only [accumulateSegments] at h; cases h
  | cons s rest ih =>
    intro prev totals cursor e h
    simp only [accumulateSegments] at h
    cases prev with
    | none => exact ih _ _ _ _ h
    | some p =>
      dsimp only [] at h
      split_ifs at h with hlt
      · exact (Except.error.inj h).symm
      · exact ih _ _ _ _ h

theorem accumulateSegments_overlap (segs : List SegmentInput) :
    ∀ (prev : Option Nat) (totals : DutyTotals) (cursor : ℤ),
      overlapFrom prev (segs.map fun s => (s.start_time, s.end_time)) = true →
      accumulateSegments prev totals cursor segs =
        .error (.validation "Duty segments may not overlap") := by
  induction segs with
  | nil => intro prev totals cursor h; simp [overlapFrom] at h
  | cons s rest ih =>
    intro prev totals cursor h
    rw [List.map_cons] at h
    simp only [overlapFrom] at h
    simp only [accumulateSegments]
    cases prev with
    | none =>
      simp only [Bool.false_or] at h
      exact ih _ _ _ h
    | some p =>
      dsimp only [] at h ⊢
      by_cases hlt : s.start_time < p
      · rw [if_pos hlt]
      · rw [if_neg hlt]
        rw [Bool.or_eq_true] at h
        rcases h with h | h
        · exact absurd (of_decide_eq_true h) hlt
        · exact ih _ _ _ h

theorem accumulateSegments_ok_sum (segs : List SegmentInput) :
    ∀ (prev : Option Nat) (totals : DutyTotals) (cursor : ℤ) (out : DutyTotals × ℤ),
      accumulateSegments prev totals cursor segs = .ok out →
      out.2 = cursor + (segs.map (·.duration_minutes)).sum := by
  induction segs with
  | nil =>
    intro prev totals cursor out h
    simp only [accumulateSegments] at h
    cases h
    simp
  | cons s rest ih =>
    intro prev totals cursor out h
    simp only [accumulateSegments] at h
    rw [List.map_cons, List.sum_cons]
    cases prev with
    | none =>
      have := ih _ _ _ _ h
      rw [this]; ring
    | some p =>
      dsimp only [] at h
      split_ifs at h with hlt
      have := ih _ _ _ _ h
      rw [this]; ring

/-- C4: an authorized `upsert_driver_log` call (positive day number, trip
found for the user) raises a `ValidationError` — persisting nothing, since
an error rolls the transaction back — whenever the supplied segments
overlap (`start < previous end`), contain a duration not divisible by 15
minutes, or total more than 1440 minutes. -/
theorem invalid_segments_rejected (db : LogsDB) (user trip_id : Nat) (day_number : ℤ)
    (log_date : Option Nat) (notes : String) (raw : List RawSegment) (dist : Option ℚ)
    (hday : 1 ≤ day_number)
    (htrip : (db.trips.find? (fun t => t.id = trip_id ∧ t.user = user)).isSome)
    (hbad : overlapFrom none (segTimesOf raw) = true ∨
      (∃ r ∈ raw, ((r.endTime.getD 0 : ℤ) - (r.startTime.getD 0 : ℤ)) % 15 ≠ 0) ∨
      MINUTES_PER_DAY <
        (raw.map fun r => ((r.endTime.getD 0 : ℤ) - (r.startTime.getD 0 : ℤ))).sum) :
    ∃ m, upsert_driver_log db user trip_id day_number log_date notes raw dist =
      .error (.validation m) := by
  have hday2 : ¬(day_number ≤ 0) := by omega
  obtain ⟨trip, htripeq⟩ := Option.isSome_iff_exists.mp htrip
  rw [upsert_driver_log, if_neg hday2, htripeq]
  dsimp only []
  cases hnorm : normalise_segments raw with
  | error e =>
    obtain ⟨m, rfl⟩ := normalise_segments_error_validation raw e hnorm
    exact ⟨m, rfl⟩
  | ok parsed =>
    dsimp only []
    obtain ⟨htimes, hvalid⟩ := normalise_segments_ok raw parsed hnorm
    by_cases hemp : parsed.isEmpty
    · rw [if_pos hemp]
      exact ⟨_, rfl⟩
    · rw [if_neg hemp]
      have hdur : parsed.map (·.duration_minutes) =
          raw.map fun r => ((r.endTime.getD 0 : ℤ) - (r.startTime.getD 0 : ℤ)) := by
        have h1 : parsed.map (·.duration_minutes) =
            (parsed.map fun s => (s.start_time, s.end_time)).map
              (fun p => ((p.2 : ℤ) - (p.1 : ℤ))) := by
          rw [List.map_map]
          rfl
        rw [h1, htimes, segTimesOf, List.map_map]
        rfl
      rcases hbad with hov | h15 | hsum
      · rw [accumulateSegments_overlap parsed none {} 0 (by rw [htimes]; exact hov)]
        exact ⟨_, rfl⟩
      · exfalso
        obtain ⟨r, hr, hrbad⟩ := h15
        have hmem : ((r.startTime.getD 0, r.endTime.getD 0) : Nat × Nat) ∈ segTimesOf raw :=
          List.mem_map_of_mem _ hr
        rw [← htimes] at hmem
        obtain ⟨s, hs, hseq⟩ := List.mem_map.mp hmem
        have hsdur : s.duration_minutes =
            ((r.endTime.getD 0 : ℤ) - (r.startTime.getD 0 : ℤ)) := by
          have h1 : s.start_time = r.startTime.getD 0 := by
            have := congrArg Prod.fst hseq
            simpa using this
          have h2 : s.end_time = r.endTime.getD 0 := by
            have := congrArg Prod.snd hseq
            simpa using this
          rw [SegmentInput.duration_minutes, h1, h2]
        have := (validate_ok_facts s (hvalid s hs)).2.2
        rw [hsdur] at this
        exact hrbad this
      · cases hacc : accumulateSegments none {} 0 parsed with
        | error e =>
          have he := accumulateSegments_error_validation parsed none {} 0 e hacc
          refine ⟨"Duty segments may not overlap", ?_⟩
          rw [he]
        | ok out =>
          obtain ⟨totals, cursor⟩ := out
          dsimp only []
          have hcur : cursor = (raw.map fun r =>
              ((r.endTime.getD 0 : ℤ) - (r.startTime.getD 0 : ℤ))).sum := by
            have h0 := accumulateSegments_ok_sum parsed none {} 0 (totals, cursor) hacc
            simpa [hdur] using h0
          rw [if_pos (show cursor > MINUTES_PER_DAY by rw [hcur]; exact hsum)]
          exact ⟨_, rfl⟩

/-- C4 witness: two overlapping segments (the second starts at minute 30,
before the first ends at minute 60) are rejected with a ValidationError. -/
theorem invalid_segments_rejected_witness :
    (1:ℤ) ≤ 1 ∧
    ((⟨[⟨1, 1, "PLANNED", 0, {}, {}, {}, 0, 0⟩], [], [], 1⟩ : LogsDB).trips.find?
      (fun t => t.id = 1 ∧ t.user = 1)).isSome ∧
    (overlapFrom none (segTimesOf
      [⟨some "DRIVING", some 0, some 60, none, none, none⟩,
       ⟨some "OFF_DUTY", some 30, some 90, none, none, none⟩]) = true ∨
     (∃ r ∈ [(⟨some "DRIVING", some 0, some 60, none, none, none⟩ : RawSegment),
             ⟨some "OFF_DUTY", some 30, some 90, none, none, none⟩],
        ((r.endTime.getD 0 : ℤ) - (r.startTime.getD 0 : ℤ)) % 15 ≠ 0) ∨
     MINUTES_PER_DAY <
       ([(⟨some "DRIVING", some 0, some 60, none, none, none⟩ : RawSegment),
         ⟨some "OFF_DUTY", some 30, some 90, none, none, none⟩].map fun r =>
           ((r.endTime.getD 0 : ℤ) - (r.startTime.getD 0 : ℤ))).sum) ∧
    ∃ m, upsert_driver_log ⟨[⟨1, 1, "PLANNED", 0, {}, {}, {}, 0, 0⟩], [], [], 1⟩ 1 1 1
        none ""
        [⟨some "DRIVING", some 0, some 60, none, none, none⟩,
         ⟨some "OFF_DUTY", some 30, some 90, none, none, none⟩] none =
      .error (.validation m) :=
  ⟨by decide, by decide, by decide,
    invalid_segments_rejected ⟨[⟨1, 1, "PLANNED", 0, {}, {}, {}, 0, 0⟩], [], [], 1⟩ 1 1 1
      none ""
      [⟨some "DRIVING", some 0, some 60, none, none, none⟩,
       ⟨some "OFF_DUTY", some 30, some 90, none, none, none⟩] none
      (by decide) (by decide) (by decide)⟩

/-- C8 (amended): for `upsert_driver_log`, a nonexistent trip and a trip
owned by a different user produce the one identical outcome (PermissionDenied
"Trip not found", store untouched) — the caller cannot distinguish them.
`delete_driver_log`, however, distinguishes: a nonexistent log returns
`False` while another user's log raises PermissionDenied
"Not allowed to modify this log". -/
theorem log_access_outcomes (db : LogsDB) (user : Nat) :
    (∀ (trip_id : Nat) (day_number : ℤ) (log_date : Option Nat) (notes : String)
        (raw : List RawSegment) (dist : Option ℚ),
      1 ≤ day_number →
      db.trips.find? (fun t => t.id = trip_id ∧ t.user = user) = none →
      upsert_driver_log db user trip_id day_number log_date notes raw dist =
        .error (.permission "Trip not found")) ∧
    (∀ log_id : Nat, db.logs.find? (fun l => l.id = log_id) = none →
      delete_driver_log db user log_id = .ok (db, false)) ∧
    (∀ (log_id : Nat) (log : DriverLog) (trip : Trip),
      db.logs.find? (fun l => l.id = log_id) = some log →
      db.trips.find? (fun t => t.id = log.trip_id) = some trip →
      trip.user ≠ user →
      delete_driver_log db user log_id =
        .error (.permission "Not allowed to modify this log")) := by
  refine ⟨?_, ?_, ?_⟩
  · intro trip_id day_number log_date notes raw dist hday hnone
    have hday2 : ¬(day_number ≤ 0) := by omega
    rw [upsert_driver_log, if_neg hday2, hnone]
  · intro log_id hnone
    rw [delete_driver_log, hnone]
  · intro log_id log trip hlog htrip huser
    rw [delete_driver_log, hlog]
    dsimp only []
    rw [htrip]
    dsimp only []
    rw [if_pos huser]

/-- C8 witness: concrete instances of each of the three behaviours. -/
theorem log_access_outcomes_witness :
    upsert_driver_log ⟨[⟨1, 1, "PLANNED", 0, {}, {}, {}, 0, 0⟩], [], [], 2⟩ 2 1 1 none ""
        [] none = .error (.permission "Trip not found") ∧
    delete_driver_log
        ⟨[⟨1, 1, "PLANNED", 0, {}, {}, {}, 0, 0⟩], [⟨1, 1, 1, 0, "", 0, 0, 0, 0, 0⟩], [], 2⟩
        2 99 =
      .ok (⟨[⟨1, 1, "PLANNED", 0, {}, {}, {}, 0, 0⟩], [⟨1, 1, 1, 0, "", 0, 0, 0, 0, 0⟩], [], 2⟩,
        false) ∧
    delete_driver_log
        ⟨[⟨1, 1, "PLANNED", 0, {}, {}, {}, 0, 0⟩], [⟨1, 1, 1, 0, "", 0, 0, 0, 0, 0⟩], [], 2⟩
        2 1 = .error (.permission "Not allowed to modify this log") :=
  ⟨(log_access_outcomes ⟨[⟨1, 1, "PLANNED", 0, {}, {}, {}, 0, 0⟩], [], [], 2⟩ 2).1
      1 1 none "" [] none (by decide) (by decide),
   (log_access_outcomes
      ⟨[⟨1, 1, "PLANNED", 0, {}, {}, {}, 0, 0⟩], [⟨1, 1, 1, 0, "", 0, 0, 0, 0, 0⟩], [], 2⟩
      2).2.1 99 (by decide),
   (log_access_outcomes
      ⟨[⟨1, 1, "PLANNED", 0, {}, {}, {}, 0, 0⟩], [⟨1, 1, 1, 0, "", 0, 0, 0, 0, 0⟩], [], 2⟩
      2).2.2 1 ⟨1, 1, 1, 0, "", 0, 0, 0, 0, 0⟩ ⟨1, 1, "PLANNED", 0, {}, {}, {}, 0, 0⟩
      (by decide) (by decide) (by decide)⟩

/-- C8 counterexample: the claim "nonexistence and lack of authorization
are observationally identical for `delete_driver_log`" is false — deleting
another user's log (id 1) raises PermissionDenied while deleting a missing
log (id 99) returns ok/False, two different observable outcomes. -/
theorem log_access_outcomes_counterexample :
    delete_driver_log
        ⟨[⟨1, 1, "PLANNED", 0, {}, {}, {}, 0, 0⟩], [⟨1, 1, 1, 0, "", 0, 0, 0, 0, 0⟩], [], 2⟩
        2 1 = .error (.permission "Not allowed to modify this log") ∧
    delete_driver_log
        ⟨[⟨1, 1, "PLANNED", 0, {}, {}, {}, 0, 0⟩], [⟨1, 1, 1, 0, "", 0, 0, 0, 0, 0⟩], [], 2⟩
        2 99 =
      .ok (⟨[⟨1, 1, "PLANNED", 0, {}, {}, {}, 0, 0⟩], [⟨1, 1, 1, 0, "", 0, 0, 0, 0, 0⟩], [], 2⟩,
        false) ∧
    (Except.error (LogError.permission "Not allowed to modify this log") :
        Except LogError (LogsDB × Bool)) ≠
      .ok (⟨[⟨1, 1, "PLANNED", 0, {}, {}, {}, 0, 0⟩], [⟨1, 1, 1, 0, "", 0, 0, 0, 0, 0⟩], [], 2⟩,
        false) := by
  refine ⟨rfl, rfl, ?_⟩
  intro h
  exact Except.noConfusion h

/-- C10: a raw segment payload without a "status" key is silently given
status OFF_DUTY by `_normalise_segments` (and its minutes land in the
off-duty bucket of the totals loop); only a present-but-unknown status
value is rejected with `ValidationError`. -/
theorem missing_status_defaults_off_duty :
    (∀ (raw : RawSegment) (st en : Nat), raw.status = none → raw.startTime = some st →
      raw.endTime = some en → st < en → ((en : ℤ) - (st : ℤ)) % 15 = 0 →
      normalise_segments [raw] =
        .ok [⟨"OFF_DUTY", st, en, (raw.location.getD "").take 255,
              (raw.activity.getD "").take 255, raw.remarks.getD ""⟩] ∧
      accumulateSegments none {} 0
          [⟨"OFF_DUTY", st, en, (raw.location.getD "").take 255,
            (raw.activity.getD "").take 255, raw.remarks.getD ""⟩] =
        .ok (⟨(en : ℤ) - (st : ℤ), 0, 0, 0⟩, (en : ℤ) - (st : ℤ))) ∧
    (∀ (raw : RawSegment) (s : String), raw.status = some s → s ∉ VALID_STATUSES →
      raw.startTime.isSome → raw.endTime.isSome →
      normalise_segments [raw] = .error (.validation "Unsupported duty status")) := by
  constructor
  · intro raw st en hstat hst hen hlt h15
    have hseg : buildSegment raw st en =
        ⟨"OFF_DUTY", st, en, (raw.location.getD "").take 255,
         (raw.activity.getD "").take 255, raw.remarks.getD ""⟩ := by
      rw [buildSegment, hstat]
      rfl
    have hv : (buildSegment raw st en).validate = .ok () := by
      rw [SegmentInput.validate]
      rw [if_neg (not_not_intro (show (buildSegment raw st en).status ∈ VALID_STATUSES by
        rw [hseg]
        show "OFF_DUTY" ∈ VALID_STATUSES
        decide))]
      rw [if_neg (show ¬((buildSegment raw st en).end_time ≤ (buildSegment raw st en).start_time)
        by rw [hseg]; simpa using hlt)]
      rw [if_neg (show ¬((buildSegment raw st en).duration_minutes % FIFTEEN_MINUTES ≠ 0) by
        rw [hseg]
        simpa [SegmentInput.duration_minutes, FIFTEEN_MINUTES] using h15)]
    constructor
    · rw [normalise_segments, hst, hen]
      dsimp only [parse_time]
      rw [hv]
      dsimp only []
      rw [normalise_segments]
      dsimp only []
      rw [hseg]
    · simp only [accumulateSegments, DutyTotals.add, SegmentInput.duration_minutes]
      norm_num
  · intro raw s hstat hs hstime hentime
    obtain ⟨st, hst⟩ := Option.isSome_iff_exists.mp hstime
    obtain ⟨en, hen⟩ := Option.isSome_iff_exists.mp hentime
    have hv : (buildSegment raw st en).validate =
        .error (.validation "Unsupported duty status") := by
      rw [SegmentInput.validate]
      rw [if_pos (show (buildSegment raw st en).status ∉ VALID_STATUSES by
        rw [buildSegment, hstat]; simpa using hs)]
    rw [normalise_segments, hst, hen]
    dsimp only [parse_time]
    rw [hv]

/-- C10 witness: a 60-minute segment without a status key normalises to
OFF_DUTY and counts in the off-duty bucket; status "NAP" is rejected. -/
theorem missing_status_defaults_off_duty_witness :
    (normalise_segments [⟨none, some 0, some 60, none, none, none⟩] =
        .ok [⟨"OFF_DUTY", 0, 60,
          ((⟨none, some 0, some 60, none, none, none⟩ : RawSegment).location.getD "").take 255,
          ((⟨none, some 0, some 60, none, none, none⟩ : RawSegment).activity.getD "").take 255,
          (⟨none, some 0, some 60, none, none, none⟩ : RawSegment).remarks.getD ""⟩] ∧
      accumulateSegments none {} 0
          [⟨"OFF_DUTY", 0, 60,
            ((⟨none, some 0, some 60, none, none, none⟩ : RawSegment).location.getD "").take 255,
            ((⟨none, some 0, some 60, none, none, none⟩ : RawSegment).activity.getD "").take 255,
            (⟨none, some 0, some 60, none, none, none⟩ : RawSegment).remarks.getD ""⟩] =
        .ok (⟨((60 : Nat) : ℤ) - ((0 : Nat) : ℤ), 0, 0, 0⟩,
          ((60 : Nat) : ℤ) - ((0 : Nat) : ℤ))) ∧
    normalise_segments [⟨some "NAP", some 0, some 60, none, none, none⟩] =
      .error (.validation "Unsupported duty status") :=
  ⟨missing_status_defaults_off_duty.1 ⟨none, some 0, some 60, none, none, none⟩ 0 60
      rfl rfl rfl (by decide) (by decide),
   missing_status_defaults_off_duty.2 ⟨some "NAP", some 0, some 60, none, none, none⟩ "NAP"
      rfl (by decide) (by decide) (by decide)⟩

/-! ## Fuel adequacy for the scheduler loop -/

theorem hosLoop_guard_false (fuel : Nat) (rh rc : ℚ) (day : Nat)
    (h : ¬(rh > 0 ∧ rc > 0)) : hosLoop fuel rh rc day = [] := by
  cases fuel with
  | zero => rfl
  | succ n => rw [hosLoop, if_neg h]

/-- The loop retires at least 13 cycle hours on every iteration that does
not already exhaust the guard, so `13 * fuel ≥ remaining_cycle` hours of
fuel make `hosLoop` insensitive to extra fuel: `hosFuel` in
`generate_driver_logs` therefore computes the exact fixpoint of the
source's unbounded `while` loop. -/
theorem hosLoop_fuel_stable (fuel : Nat) : ∀ (rh rc : ℚ) (day : Nat), rc ≤ 13 * fuel →
    hosLoop (fuel + 1) rh rc day = hosLoop fuel rh rc day := by
  induction fuel with
  | zero =>
    intro rh rc day hrc
    have hng : ¬(rh > 0 ∧ rc > 0) := by
      rintro ⟨h1, h2⟩
      simp at hrc
      linarith
    rw [hosLoop_guard_false (0 + 1) _ _ _ hng, hosLoop_guard_false 0 _ _ _ hng]
  | succ n ih =>
    intro rh rc day hrc
    by_cases hg : rh > 0 ∧ rc > 0
    · conv_lhs => rw [hosLoop]
      conv_rhs => rw [hosLoop]
      rw [if_pos hg, if_pos hg]
      dsimp only []
      congr 1
      by_cases hterm :
          rh - min DRIVING_LIMIT_PER_DAY (min rh rc) > 0 ∧
          rc - min (min DRIVING_LIMIT_PER_DAY (min rh rc) + ON_DUTY_BUFFER_HOURS)
            (min ON_DUTY_LIMIT_PER_DAY rc) > 0
      · have h11 : DRIVING_LIMIT_PER_DAY = (11 : ℚ) := rfl
        have h14 : ON_DUTY_LIMIT_PER_DAY = (14 : ℚ) := rfl
        have h2q : ON_DUTY_BUFFER_HOURS = (2 : ℚ) := rfl
        rw [h11, h14, h2q] at hterm ⊢
        obtain ⟨hd, ho⟩ := hterm
        have hdlt : min 11 (min rh rc) < rh := by linarith
        have hdrh : min 11 (min rh rc) = min 11 rc := by
          rcases le_total rh rc with h | h
          · rcases lt_or_le rh 11 with h2 | h2
            · exfalso
              have : min 11 (min rh rc) = rh := by
                rw [min_eq_left h, min_eq_right (le_of_lt h2)]
              linarith
            · rw [min_eq_left h]
              rw [min_eq_left h2, min_eq_left (le_trans h2 h)]
          · rw [min_eq_right h]
        have holt : min (min 11 (min rh rc) + 2) (min 14 rc) < rc := by linarith
        have hrc13 : (13 : ℚ) ≤ rc := by
          by_contra hlt
          push_neg at hlt
          rcases le_total rc 11 with hrc11 | hrc11
          · have hdrc : min 11 rc = rc := min_eq_right hrc11
            rw [hdrc] at hdrh
            have hmc : min (rc + 2) (min 14 rc) = rc := by
              rw [min_eq_right (by linarith : rc ≤ (14 : ℚ))]
              exact min_eq_right (by linarith)
            rw [hdrh, hmc] at holt
            linarith
          · have hdrc : min 11 rc = (11 : ℚ) := min_eq_left (by linarith)
            rw [hdrh, hdrc, show (11 : ℚ) + 2 = 13 by norm_num,
              min_eq_right (by linarith : rc ≤ (14 : ℚ)),
              min_eq_right (by linarith : rc ≤ (13 : ℚ))] at holt
            linarith
        have hdval : min 11 (min rh rc) = (11 : ℚ) := by
          rw [hdrh]
          exact min_eq_left (by linarith)
        have hoval : min (min 11 (min rh rc) + 2) (min 14 rc) = (13 : ℚ) := by
          rw [hdval, show (11 : ℚ) + 2 = 13 by norm_num]
          exact min_eq_left (le_min (by norm_num) hrc13)
        rw [hoval]
        refine ih _ _ _ ?_
        push_cast at hrc ⊢
        linarith
      · rw [hosLoop_guard_false (n + 1) _ _ _ hterm, hosLoop_guard_false n _ _ _ hterm]
    · rw [hosLoop_guard_false (n + 1 + 1) _ _ _ hg, hosLoop_guard_false (n + 1) _ _ _ hg]
